import Mathlib

/-!
Verification of the `pagos-ml` backend (`src/index.js` and the unnamed
variant `src/unnamed/part_000`).  The two files implement the same
`POST /create_preference` handler; they differ only in how the configured
base URL is computed (the unnamed variant strips one trailing slash).

The embedding models JavaScript runtime values (`JsValue`), truthiness,
`typeof`, property access (which throws a `TypeError` on `null` and
`undefined` receivers), `JSON.stringify`, and the handler itself split in
two phases: `phase1` (validation up to and including building the
preference payload) and `finish` (the provider call, the success path and
the `catch` block).  The external payment provider is a parameter of type
`JsValue → Except JsValue JsValue` (thrown value or resolved response).
-/

namespace PagosML

/-- A JavaScript number: either `NaN` or a (model) rational value. -/
inductive JsNum where
  | nan
  | val (q : ℚ)
deriving DecidableEq

/-- A JavaScript runtime value, as far as the handler observes it. -/
inductive JsValue where
  | undefined
  | null
  | bool (b : Bool)
  | num (n : JsNum)
  | str (s : String)
  | arr (elems : List JsValue)
  | obj (fields : List (String × JsValue))

/-- JavaScript truthiness: `undefined`, `null`, `false`, `0`, `NaN` and
the empty string are falsy; every other value is truthy. -/
def jsTruthy : JsValue → Bool
  | .undefined => false
  | .null => false
  | .bool b => b
  | .num .nan => false
  | .num (.val q) => decide (q ≠ 0)
  | .str s => decide (s ≠ "")
  | .arr _ => true
  | .obj _ => true

/-- `typeof v === "object"` holds for `null`, arrays and plain objects. -/
def typeofIsObject : JsValue → Bool
  | .null => true
  | .arr _ => true
  | .obj _ => true
  | _ => false

def isStringV : JsValue → Bool
  | .str _ => true
  | _ => false

def isArrayV : JsValue → Bool
  | .arr _ => true
  | _ => false

/-- Property read that never throws: `undefined` on a missing key or a
non-object receiver.  Used only where the source has already guarded the
receiver (the `catch` block) or where the receiver is a plain object. -/
def fieldD : JsValue → String → JsValue
  | .obj fs, name => (fs.lookup name).getD .undefined
  | _, _ => .undefined

/-- The `TypeError` thrown by reading a property of `null`/`undefined`. -/
def typeErrorReading (recv : String) (field : String) : JsValue :=
  .obj [("message", .str ("Cannot read properties of " ++ recv ++
    " (reading \x27" ++ field ++ "\x27)"))]

/-- Property read with JavaScript semantics: reading a property of
`null` or `undefined` throws a `TypeError`; a primitive receiver yields
`undefined` for the properties this handler reads. -/
def getField : JsValue → String → Except JsValue JsValue
  | .undefined, field => .error (typeErrorReading "undefined" field)
  | .null, field => .error (typeErrorReading "null" field)
  | .obj fs, name => .ok ((fs.lookup name).getD .undefined)
  | _, _ => .ok .undefined

/-- Decimal digits of `n`, left-padded with zeros to width `k`. -/
def natDigitsPadded (n k : Nat) : String :=
  let s := toString n
  String.mk (List.replicate (k - s.length) '0') ++ s

/-- Rendering of a (finite) number the way `JSON.stringify` renders it:
integers without a decimal point, other decimal-representable rationals
in positional notation.  A rational with no finite decimal expansion is
rendered as a fraction (unreachable from JavaScript numbers). -/
def ratToJson (q : ℚ) : String :=
  let sign := if q < 0 then "-" else ""
  let n := q.num.natAbs
  let d := q.den
  if d = 1 then sign ++ toString n
  else
    match (List.range 40).find? (fun k => 10 ^ k % d == 0) with
    | some k =>
      sign ++ toString (n * (10 ^ k / d) / 10 ^ k) ++ "." ++
        natDigitsPadded (n * (10 ^ k / d) % 10 ^ k) k
    | none => sign ++ toString n ++ "/" ++ toString d

def jsonEscapeChar (c : Char) : String :=
  if c = '"' then "\\\""
  else if c = '\\' then "\\\\"
  else if c = '\n' then "\\n"
  else if c = '\r' then "\\r"
  else if c = '\t' then "\\t"
  else String.singleton c

def jsonQuote (s : String) : String :=
  "\"" ++ String.join (s.data.map jsonEscapeChar) ++ "\""

def commaJoin : List String → String
  | [] => ""
  | [s] => s
  | s :: rest => s ++ "," ++ commaJoin rest

mutual

/-- `JSON.stringify`: `NaN` renders as `null`; inside objects, keys whose
value is `undefined` are skipped; inside arrays `undefined` renders as
`null`.  (A top-level `undefined` never occurs in the handler; the
template-literal rendering is used for it.) -/
def jsonStringify : JsValue → String
  | .undefined => "undefined"
  | .null => "null"
  | .bool true => "true"
  | .bool false => "false"
  | .num .nan => "null"
  | .num (.val q) => ratToJson q
  | .str s => jsonQuote s
  | .arr xs => "[" ++ commaJoin (jsonElems xs) ++ "]"
  | .obj fs => "\x7b" ++ commaJoin (jsonMembers fs) ++ "\x7d"

def jsonElems : List JsValue → List String
  | [] => []
  | .undefined :: rest => "null" :: jsonElems rest
  | v :: rest => jsonStringify v :: jsonElems rest

def jsonMembers : List (String × JsValue) → List String
  | [] => []
  | (_, .undefined) :: rest => jsonMembers rest
  | (k, v) :: rest => (jsonQuote k ++ ":" ++ jsonStringify v) :: jsonMembers rest

end

/-! ## Configuration (source lines 13-15 of index.js, 11-12 of part_000) -/

/-- `process.env.NEXT_PUBLIC_BASE_URL || "http://localhost:3000"`: the
configured base URL before any normalization; an unset or empty
environment variable falls back to the default (`||` is falsy-based). -/
def BASE_URL_raw (env : Option String) : String :=
  match env with
  | none => "http://localhost:3000"
  | some s => if s = "" then "http://localhost:3000" else s

/-- `index.js` line 15: the base URL is used exactly as configured. -/
def BASE_URL_index (env : Option String) : String :=
  BASE_URL_raw env

/-- `.replace(/\/$/, "")`: removes one trailing slash when present. -/
def stripTrailingSlash (s : String) : String :=
  if s.data.getLast? = some '/' then String.mk s.data.dropLast else s

/-- `part_000` line 12: the configured base URL with one trailing slash
stripped. -/
def BASE_URL_part0 (env : Option String) : String :=
  stripTrailingSlash (BASE_URL_raw env)

/-! ## Startup (index.js lines 22-25 and 124; part_000 lines 19-22, 98) -/

inductive StartupResult where
  | exited (code : Nat)
  | listening (port : Nat)

/-- Truthiness of an environment variable: unset or empty is falsy. -/
def envTruthy : Option String → Bool
  | none => false
  | some s => decide (s ≠ "")

/-- Top-level control flow of the module: if `!MP_ACCESS_TOKEN` the
process calls `process.exit(1)`; only otherwise does execution reach
`app.listen(PORT, ...)` with `PORT = 5000`. -/
def startup (mpAccessToken : Option String) : StartupResult :=
  if !envTruthy mpAccessToken then .exited 1 else .listening 5000

/-! ## The /create_preference handler -/

/-- An HTTP response as produced by `res.status(...).json(...)`
(`res.json(...)` alone responds with status 200). -/
structure Resp where
  status : Nat
  body : JsValue

/-- Line 49 / 42: the 400 message for a missing, non-array or empty
`items` field. -/
def itemsInvalidMessage : String :=
  "Items inválidos: se requiere un array de items no vacío."

/-- Line 56 / 48: the 400 message for a structurally invalid item,
ending in `JSON.stringify(item)`. -/
def invalidItemMessage (item : JsValue) : String :=
  "Estructura de item inválida. Cada item debe tener \x27title\x27 (string no vacío), \x27quantity\x27 (number > 0) y \x27unit_price\x27 (number > 0). Item defectuoso: "
    ++ jsonStringify item

/-- Whitespace as `String.prototype.trim` sees it (the ASCII part). -/
def isJsSpace (c : Char) : Bool :=
  c = ' ' || c = '\t' || c = '\n' || c = '\r' || c = '\x0b' || c = '\x0c'

/-- `s.trim()`: leading and trailing whitespace removed. -/
def jsTrim (s : String) : String :=
  String.mk (((s.data.dropWhile isJsSpace).reverse.dropWhile isJsSpace).reverse)

/-- `!t || typeof t !== "string" || t.trim() === ""` for `t = item.title`. -/
def titleBad (t : JsValue) : Bool :=
  !jsTruthy t ||
    (match t with
     | .str s => jsTrim s == ""
     | _ => true)

/-- `n <= 0` on a JavaScript number (`NaN <= 0` is `false`). -/
def jsLeZero : JsNum → Bool
  | .nan => false
  | .val q => decide (q ≤ 0)

/-- `!v || typeof v !== "number" || v <= 0` for `v = item.quantity` or
`v = item.unit_price`. -/
def numFieldBad (v : JsValue) : Bool :=
  !jsTruthy v ||
    (match v with
     | .num n => jsLeZero n
     | _ => true)

/-- The body of the validation loop (lines 53-55 / 45-47): the item is
invalid when any of the three field conditions fires; reading a property
of a `null`/`undefined` item throws. -/
def itemInvalidCheck (item : JsValue) : Except JsValue Bool :=
  match getField item "title" with
  | .error e => .error e
  | .ok t =>
    if titleBad t then .ok true
    else
      match getField item "quantity" with
      | .error e => .error e
      | .ok q =>
        if numFieldBad q then .ok true
        else
          match getField item "unit_price" with
          | .error e => .error e
          | .ok p => .ok (numFieldBad p)

/-- The `for (const item of items)` loop (lines 52-58 / 44-50): returns
the first invalid item, `none` when all items pass, or the thrown value. -/
def findInvalid : List JsValue → Except JsValue (Option JsValue)
  | [] => .ok none
  | item :: rest =>
    match itemInvalidCheck item with
    | .error e => .error e
    | .ok true => .ok (some item)
    | .ok false => findInvalid rest

/-- Floor of a rational, computably (`Int` division floors for the
positive denominator of a reduced rational). -/
def floorQ (q : ℚ) : ℤ := q.num / (q.den : ℤ)

/-- `parseFloat(x.toFixed(2))`: rounding to 2 decimal places, ties
upward (the ECMAScript `toFixed` contract picks the larger candidate). -/
def round2 : JsNum → JsNum
  | .nan => .nan
  | .val q => .val ((floorQ (q * 100 + 1 / 2) : ℚ) / 100)

/-- `unit_price: parseFloat(item.unit_price.toFixed(2))` (line 65 / 57).
Validation has already guaranteed a number, so the non-number branch is
unreachable. -/
def roundedPrice : JsValue → JsValue
  | .num n => .num (round2 n)
  | v => v

/-- The per-item mapping of lines 62-67 / 54-58: exactly `title`
(unchanged), `quantity` (unchanged) and `unit_price` (rounded). -/
def toPrefItem (item : JsValue) : JsValue :=
  .obj [("title", fieldD item "title"),
        ("quantity", fieldD item "quantity"),
        ("unit_price", roundedPrice (fieldD item "unit_price"))]

/-- `back_urls` (lines 68-72 / 59-63): the base URL with the three fixed
suffixes appended. -/
def backUrls (base : String) : JsValue :=
  .obj [("success", .str (base ++ "/success")),
        ("failure", .str (base ++ "/failure")),
        ("pending", .str (base ++ "/pending"))]

/-- `preferenceData` (lines 61-77 / 53-68). -/
def preferenceData (base : String) (items : List JsValue) : JsValue :=
  .obj [("items", .arr (items.map toPrefItem)),
        ("back_urls", backUrls base)]

/-- What the try block does before the provider call: either an early
400 response, a thrown value (handed to the catch block), or the request
object `{ body: preferenceData }` passed to `preferencesService.create`. -/
inductive Phase1 where
  | early (r : Resp)
  | thrownPre (e : JsValue)
  | call (req : JsValue)

/-- Lines 45-79 / 38-70 of the handler: destructure `items` from the
body, validate, and build the outbound request. -/
def phase1 (base : String) (body : JsValue) : Phase1 :=
  match getField body "items" with
  | .error e => .thrownPre e
  | .ok items =>
    if !jsTruthy items || !isArrayV items ||
        (match items with
         | .arr xs => xs.length == 0
         | _ => false) then
      .early ⟨400, .obj [("message", .str itemsInvalidMessage)]⟩
    else
      match items with
      | .arr xs =>
        (match findInvalid xs with
         | .error e => .thrownPre e
         | .ok (some item) =>
           .early ⟨400, .obj [("message", .str (invalidItemMessage item))]⟩
         | .ok none => .call (.obj [("body", preferenceData base xs)]))
      | _ => .early ⟨400, .obj [("message", .str itemsInvalidMessage)]⟩

/-- The generic fallback of line 92 / 80. -/
def genericErrorMessage : String :=
  "Error desconocido al procesar la solicitud."

/-- The catch block (lines 90-120 / 78-95): defensive extraction of
`message`, `status`, `cause` and `response.data` from the thrown value,
then a 500 response `{ message, details }`. -/
def normalizeError (error : JsValue) : Resp :=
  if jsTruthy error && typeofIsObject error then
    let m0 := fieldD error "message"
    let msg1 := if jsTruthy m0 then m0 else .str genericErrorMessage
    let st := fieldD error "status"
    let d1 := if jsTruthy st then [("status", st)] else []
    let c := fieldD error "cause"
    let d2 := d1 ++ (if jsTruthy c then [("cause", c)] else [])
    let r := fieldD error "response"
    if jsTruthy r then
      let rd := fieldD r "data"
      if jsTruthy rd then
        let d3 := d2 ++ [("apiResponse", rd)]
        let m1 := fieldD rd "message"
        let msg2 := if jsTruthy m1 then m1 else msg1
        ⟨500, .obj [("message", msg2), ("details", .obj d3)]⟩
      else ⟨500, .obj [("message", msg1), ("details", .obj d2)]⟩
    else ⟨500, .obj [("message", msg1), ("details", .obj d2)]⟩
  else
    ⟨500, .obj [("message", .str genericErrorMessage), ("details", .obj [])]⟩

/-- The provider call, the success path (lines 82-88 / 73-76) and the
catch block.  `response.init_point` is a property read and can itself
throw (e.g. on a `null` response), landing in the catch block too. -/
def finish (p : Phase1) (provider : JsValue → Except JsValue JsValue) : Resp :=
  match p with
  | .early r => r
  | .thrownPre e => normalizeError e
  | .call req =>
    match provider req with
    | .error e => normalizeError e
    | .ok resp =>
      match getField resp "init_point" with
      | .error e => normalizeError e
      | .ok ip => ⟨200, .obj [("init_point", ip)]⟩

/-- The whole `POST /create_preference` handler, parameterized by the
computed base URL and the external provider. -/
def createPreference (base : String)
    (provider : JsValue → Except JsValue JsValue) (body : JsValue) : Resp :=
  finish (phase1 base body) provider

/-- The handler as deployed in `index.js` (base URL not normalized). -/
def createPreferenceIndex (env : Option String)
    (provider : JsValue → Except JsValue JsValue) (body : JsValue) : Resp :=
  createPreference (BASE_URL_index env) provider body

/-- The handler as deployed in `part_000` (trailing slash stripped). -/
def createPreferencePart0 (env : Option String)
    (provider : JsValue → Except JsValue JsValue) (body : JsValue) : Resp :=
  createPreference (BASE_URL_part0 env) provider body

/-! ## Predicates and spec-side definitions used by the claims -/

def isNullOrUndefined : JsValue → Bool
  | .null => true
  | .undefined => true
  | _ => false

/-- Written from the spec wording, for comparison: redirect URLs equal
the configured base URL with any trailing slash stripped, followed by
the three fixed suffixes (no double slash). -/
def specRedirectUrls (base : String) : JsValue :=
  .obj [("success", .str (stripTrailingSlash base ++ "/success")),
        ("failure", .str (stripTrailingSlash base ++ "/failure")),
        ("pending", .str (stripTrailingSlash base ++ "/pending"))]

/-- Written from the spec wording, for comparison: the input price
rounded to 2 decimal places (round half-up, Mathlib `round`). -/
def specRound2 (q : ℚ) : ℚ := (round (q * 100) : ℚ) / 100

/-- The claim wording for a bad title: missing, not a string, or empty
after trimming whitespace. -/
def specTitleInvalid (item : JsValue) : Bool :=
  match fieldD item "title" with
  | .str s => jsTrim s == ""
  | _ => true

/-- The claim wording for a bad numeric field: missing, not numeric, or
`≤ 0` (on JavaScript numbers, so `NaN ≤ 0` is false). -/
def specNumFieldInvalid (v : JsValue) : Bool :=
  match v with
  | .num n => jsLeZero n
  | _ => true

/-- The claim wording for an invalid item. -/
def specItemInvalid (item : JsValue) : Bool :=
  specTitleInvalid item || specNumFieldInvalid (fieldD item "quantity") ||
    specNumFieldInvalid (fieldD item "unit_price")

/-- When truthy, the `message` field of the thrown error and of its
nested `response.data` are strings.  (Thrown errors violating this are
copied verbatim into the response, see the corrected claim C6.) -/
def messageFieldsStringly (e : JsValue) : Bool :=
  (!jsTruthy (fieldD e "message") || isStringV (fieldD e "message")) &&
    (!jsTruthy (fieldD (fieldD (fieldD e "response") "data") "message") ||
      isStringV (fieldD (fieldD (fieldD e "response") "data") "message"))

/-! ## Concrete fixtures used by witnesses and counterexamples -/

def mkItem (title : String) (quantity price : JsNum) : JsValue :=
  .obj [("title", .str title),
        ("quantity", .num quantity),
        ("unit_price", .num price)]

/-- The item of spec example 2: `{title:"Shirt", quantity:2, unit_price:19.999}`. -/
def shirtItem : JsValue := mkItem "Shirt" (.val 2) (.val (19999 / 1000))

def shirtBody : JsValue := .obj [("items", .arr [shirtItem])]

/-- A valid item with integer price. -/
def bookItem : JsValue := mkItem "Libro" (.val 1) (.val 5)

def bookBody : JsValue := .obj [("items", .arr [bookItem])]

/-! ## General lemmas about the embedding -/

lemma floorQ_eq (q : ℚ) : floorQ q = ⌊q⌋ := by
  conv_rhs => rw [← Rat.num_div_den q]
  rw [Rat.floor_intCast_div_natCast, floorQ]

/-- The source's `toFixed(2)`-based rounding is exactly the spec's
round-half-up to two decimal places. -/
lemma round2_val (q : ℚ) : round2 (.val q) = .val (specRound2 q) := by
  rw [round2, specRound2, floorQ_eq, round_eq]

lemma getField_eq_fieldD (v : JsValue) (name : String)
    (h : isNullOrUndefined v = false) : getField v name = .ok (fieldD v name) := by
  cases v <;> simp_all [getField, fieldD, isNullOrUndefined]

lemma itemInvalidCheck_eq (item : JsValue) (h : isNullOrUndefined item = false) :
    itemInvalidCheck item =
      .ok (titleBad (fieldD item "title") || numFieldBad (fieldD item "quantity") ||
        numFieldBad (fieldD item "unit_price")) := by
  rw [itemInvalidCheck, getField_eq_fieldD item "title" h,
    getField_eq_fieldD item "quantity" h, getField_eq_fieldD item "unit_price" h]
  dsimp only
  generalize titleBad (fieldD item "title") = a
  generalize numFieldBad (fieldD item "quantity") = b
  generalize numFieldBad (fieldD item "unit_price") = c
  cases a <;> cases b <;> cases c <;> simp

lemma titleBad_of_spec (t : JsValue)
    (h : (match t with | .str s => jsTrim s == "" | _ => true) = true) :
    titleBad t = true := by
  cases t <;> simp_all [titleBad, jsTruthy]

lemma specTitleInvalid_imp (item : JsValue) (h : specTitleInvalid item = true) :
    titleBad (fieldD item "title") = true :=
  titleBad_of_spec (fieldD item "title") h

lemma numFieldBad_of_spec (v : JsValue) (h : specNumFieldInvalid v = true) :
    numFieldBad v = true := by
  cases v with
  | num n => cases n <;> simp_all [specNumFieldInvalid, numFieldBad, jsLeZero, jsTruthy]
  | _ => simp_all [specNumFieldInvalid, numFieldBad]

/-- An item invalid in the claim's sense is flagged by the source's
check (provided reading its properties does not throw). -/
lemma specItemInvalid_imp (item : JsValue) (h : specItemInvalid item = true)
    (hn : isNullOrUndefined item = false) : itemInvalidCheck item = .ok true := by
  rw [itemInvalidCheck_eq item hn]
  rw [specItemInvalid] at h
  simp only [Bool.or_eq_true] at h
  rcases h with (h1 | h2) | h3
  · rw [specTitleInvalid_imp item h1]
    simp
  · rw [numFieldBad_of_spec _ h2]
    simp
  · rw [numFieldBad_of_spec _ h3]
    simp

/-- The loop flags the first invalid item when everything before it
passes. -/
lemma findInvalid_append (good : List JsValue)
    (hg : ∀ it ∈ good, itemInvalidCheck it = .ok false) (bad : JsValue)
    (rest : List JsValue) (hb : itemInvalidCheck bad = .ok true) :
    findInvalid (good ++ bad :: rest) = .ok (some bad) := by
  induction good with
  | nil => simp only [List.nil_append, findInvalid, hb]
  | cons x xs ih =>
    have hx : itemInvalidCheck x = .ok false := hg x (by simp)
    rw [List.cons_append]
    simp only [findInvalid, hx]
    exact ih (fun it hit => hg it (by simp [hit]))

/-- On a body whose `items` is a non-empty array, the handler reduces to
the validation loop. -/
lemma phase1_cons (base : String) (x : JsValue) (xs : List JsValue) :
    phase1 base (.obj [("items", .arr (x :: xs))]) =
      (match findInvalid (x :: xs) with
       | .error e => .thrownPre e
       | .ok (some item) =>
         .early ⟨400, .obj [("message", .str (invalidItemMessage item))]⟩
       | .ok none => .call (.obj [("body", preferenceData base (x :: xs))])) := rfl

lemma phase1_call_of_valid (base : String) (items : List JsValue)
    (hne : items ≠ []) (h : findInvalid items = .ok none) :
    phase1 base (.obj [("items", .arr items)]) =
      .call (.obj [("body", preferenceData base items)]) := by
  obtain ⟨x, xs, rfl⟩ := List.exists_cons_of_ne_nil hne
  rw [phase1_cons, h]

lemma phase1_early_of_invalid (base : String) (good : List JsValue)
    (bad : JsValue) (rest : List JsValue)
    (hg : ∀ it ∈ good, itemInvalidCheck it = .ok false)
    (hb : itemInvalidCheck bad = .ok true) :
    phase1 base (.obj [("items", .arr (good ++ bad :: rest))]) =
      .early ⟨400, .obj [("message", .str (invalidItemMessage bad))]⟩ := by
  have hfi := findInvalid_append good hg bad rest hb
  obtain ⟨x, xs, hxx⟩ :=
    List.exists_cons_of_ne_nil (l := good ++ bad :: rest) (by simp)
  rw [hxx] at hfi ⊢
  rw [phase1_cons, hfi]

lemma phase1_bad_items (base : String) (body items : JsValue)
    (h1 : getField body "items" = .ok items)
    (h2 : items = .undefined ∨ isArrayV items = false ∨ items = .arr []) :
    phase1 base body =
      .early ⟨400, .obj [("message", .str itemsInvalidMessage)]⟩ := by
  rw [phase1, h1]
  dsimp only
  rcases h2 with rfl | h | rfl
  · rfl
  · cases items with
    | arr xs => simp [isArrayV] at h
    | _ => simp [isArrayV, jsTruthy]
  · rfl

lemma finish_early (r : Resp) (provider : JsValue → Except JsValue JsValue) :
    finish (.early r) provider = r := rfl

lemma createPreference_early (base : String)
    (provider : JsValue → Except JsValue JsValue) (body : JsValue) (r : Resp)
    (h : phase1 base body = .early r) : createPreference base provider body = r := by
  rw [createPreference, h]
  rfl

lemma createPreference_thrown (base : String)
    (provider : JsValue → Except JsValue JsValue) (body req e : JsValue)
    (h1 : phase1 base body = .call req) (h2 : provider req = .error e) :
    createPreference base provider body = normalizeError e := by
  rw [createPreference, h1]
  simp only [finish, h2]

lemma normalizeError_shape (e : JsValue) :
    ∃ m d, normalizeError e = ⟨500, .obj [("message", m), ("details", .obj d)]⟩ := by
  rw [normalizeError]
  split
  · dsimp only
    split
    · split
      · exact ⟨_, _, rfl⟩
      · exact ⟨_, _, rfl⟩
    · exact ⟨_, _, rfl⟩
  · exact ⟨_, _, rfl⟩

lemma normalizeError_not_object (e : JsValue)
    (h : jsTruthy e = false ∨ typeofIsObject e = false) :
    normalizeError e =
      ⟨500, .obj [("message", .str genericErrorMessage), ("details", .obj [])]⟩ := by
  have hc : (jsTruthy e && typeofIsObject e) = false := by
    rcases h with h | h <;> simp [h]
  rw [normalizeError, hc]
  simp

lemma normalizeError_no_fields (e : JsValue)
    (h1 : jsTruthy (fieldD e "message") = false)
    (h2 : jsTruthy (fieldD e "status") = false)
    (h3 : jsTruthy (fieldD e "cause") = false)
    (h4 : jsTruthy (fieldD (fieldD e "response") "data") = false) :
    normalizeError e =
      ⟨500, .obj [("message", .str genericErrorMessage), ("details", .obj [])]⟩ := by
  rw [normalizeError]
  split
  · dsimp only
    rw [h1, h2, h3, h4]
    split
    · simp
    · simp
  · rfl

lemma truthy_string_val (v : JsValue) (ht : jsTruthy v = true)
    (hs : isStringV v = true) : ∃ s, v = .str s ∧ s ≠ "" := by
  cases v <;> simp_all [jsTruthy, isStringV]

lemma truthyString_choice (v : JsValue)
    (hs : (!jsTruthy v || isStringV v) = true) :
    ∃ s, (if jsTruthy v then v else .str genericErrorMessage) = .str s ∧ s ≠ "" := by
  by_cases h : jsTruthy v = true
  · simp only [h, Bool.not_true, Bool.false_or] at hs
    obtain ⟨s, rfl, hne⟩ := truthy_string_val v h hs
    exact ⟨s, by simp [h], hne⟩
  · simp only [Bool.not_eq_true] at h
    exact ⟨genericErrorMessage, by simp [h], by decide⟩

/-- Whenever the thrown error's `message` fields are strings when
truthy, the 500 body carries a non-empty message string. -/
lemma normalizeError_message_string (e : JsValue)
    (h : messageFieldsStringly e = true) :
    ∃ s d, normalizeError e = ⟨500, .obj [("message", .str s), ("details", .obj d)]⟩ ∧
      s ≠ "" := by
  rw [messageFieldsStringly, Bool.and_eq_true] at h
  obtain ⟨h1, h2⟩ := h
  obtain ⟨s1, hs1, hs1ne⟩ := truthyString_choice _ h1
  rw [normalizeError]
  split
  · dsimp only
    rw [hs1]
    split
    · split
      · by_cases hm1 : jsTruthy (fieldD (fieldD (fieldD e "response") "data") "message") = true
        · simp only [hm1, Bool.not_true, Bool.false_or] at h2
          obtain ⟨s2, hv, hs2ne⟩ :=
            truthy_string_val (fieldD (fieldD (fieldD e "response") "data") "message") hm1 h2
          rw [hm1]
          simp only [if_true, hv]
          exact ⟨s2, _, rfl, hs2ne⟩
        · simp only [Bool.not_eq_true] at hm1
          rw [hm1]
          simp only [Bool.false_eq_true, if_false]
          exact ⟨s1, _, rfl, hs1ne⟩
      · exact ⟨s1, _, rfl, hs1ne⟩
    · exact ⟨s1, _, rfl, hs1ne⟩
  · exact ⟨genericErrorMessage, [], rfl, by decide⟩

/-! ## Claim theorems -/

/-- C1 (counterexample): with the configured base URL
`https://shop.example/` (trailing slash), the `index.js` handler sends the
success redirect URL `https://shop.example//success` to the provider — a
double slash — which differs from the claimed value, the base URL with
the trailing slash stripped followed by `/success`. -/
theorem redirect_urls_counterexample :
    fieldD (backUrls (BASE_URL_index (some "https://shop.example/"))) "success" =
      .str "https://shop.example//success" ∧
    phase1 (BASE_URL_index (some "https://shop.example/")) bookBody =
      .call (.obj [("body",
        .obj [("items", .arr [mkItem "Libro" (.val 1) (.val 5)]),
              ("back_urls",
                .obj [("success", .str "https://shop.example//success"),
                      ("failure", .str "https://shop.example//failure"),
                      ("pending", .str "https://shop.example//pending")])])]) ∧
    stripTrailingSlash "https://shop.example/" ++ "/success" =
      "https://shop.example/success" ∧
    ("https://shop.example//success" : String) ≠ "https://shop.example/success" := by
  refine ⟨?_, ?_, ?_, ?_⟩
  · with_unfolding_all rfl
  · with_unfolding_all rfl
  · with_unfolding_all rfl
  · decide

/-- C1 (amended): the `part_000` variant satisfies the claim — its three
redirect URLs equal the configured base URL with one trailing slash
stripped, followed by `/success`, `/failure`, `/pending` — while the
`index.js` variant appends the suffixes to the configured base URL
verbatim, so a configured base URL ending in a slash produces a double
slash there. -/
theorem redirect_urls_amended (env : Option String) :
    backUrls (BASE_URL_part0 env) = specRedirectUrls (BASE_URL_raw env) ∧
    backUrls (BASE_URL_index env) =
      .obj [("success", .str (BASE_URL_raw env ++ "/success")),
            ("failure", .str (BASE_URL_raw env ++ "/failure")),
            ("pending", .str (BASE_URL_raw env ++ "/pending"))] :=
  ⟨rfl, rfl⟩

/-- C2: for every valid non-empty cart, the outbound request is exactly
`{ body: preferenceData }` whose `items` are the input items in order,
each mapped to exactly `title` (unchanged), `quantity` (unchanged) and
`unit_price` equal to the input price rounded to 2 decimal places; all
other per-item fields are discarded. -/
theorem items_mapping (env : Option String) (items : List JsValue)
    (hne : items ≠ []) (hval : findInvalid items = .ok none) :
    phase1 (BASE_URL_index env) (.obj [("items", .arr items)]) =
      .call (.obj [("body", preferenceData (BASE_URL_index env) items)]) ∧
    (∀ base : String, fieldD (preferenceData base items) "items" =
      .arr (items.map toPrefItem)) ∧
    (items.map toPrefItem).length = items.length ∧
    (∀ item : JsValue, toPrefItem item =
      .obj [("title", fieldD item "title"), ("quantity", fieldD item "quantity"),
            ("unit_price", roundedPrice (fieldD item "unit_price"))]) ∧
    (∀ q : ℚ, roundedPrice (.num (.val q)) = .num (.val (specRound2 q))) :=
  ⟨phase1_call_of_valid _ items hne hval, fun _ => rfl, List.length_map _ _,
    fun _ => rfl, fun q => congrArg JsValue.num (round2_val q)⟩

/-- C2 (witness): the cart of spec example 2 — `19.999` is sent as `20`. -/
theorem items_mapping_witness :
    findInvalid [shirtItem] = .ok none ∧
    phase1 (BASE_URL_index none) (.obj [("items", .arr [shirtItem])]) =
      .call (.obj [("body", preferenceData (BASE_URL_index none) [shirtItem])]) ∧
    fieldD (toPrefItem shirtItem) "unit_price" = .num (.val 20) :=
  ⟨by with_unfolding_all rfl,
   (items_mapping none [shirtItem] (by simp [shirtItem]) (by with_unfolding_all rfl)).1,
   by with_unfolding_all rfl⟩

/-- C3: a body whose `items` field is absent, not an array, or an empty
array gets a 400 response with a message string, and the response does
not depend on the provider (it is never called). -/
theorem reject_missing_items (base : String) (body items : JsValue)
    (p1 p2 : JsValue → Except JsValue JsValue)
    (h1 : getField body "items" = .ok items)
    (h2 : items = .undefined ∨ isArrayV items = false ∨ items = .arr []) :
    phase1 base body = .early ⟨400, .obj [("message", .str itemsInvalidMessage)]⟩ ∧
    createPreference base p1 body =
      ⟨400, .obj [("message", .str itemsInvalidMessage)]⟩ ∧
    createPreference base p1 body = createPreference base p2 body := by
  have h400 := phase1_bad_items base body items h1 h2
  have e1 := createPreference_early base p1 body _ h400
  have e2 := createPreference_early base p2 body _ h400
  exact ⟨h400, e1, by rw [e1, e2]⟩

/-- C3 (witness): the empty body (no `items` field) is rejected with 400. -/
theorem reject_missing_items_witness :
    getField (.obj []) "items" = .ok .undefined ∧
    createPreference "http://localhost:3000" (fun _ => .ok .null) (.obj []) =
      ⟨400, .obj [("message", .str itemsInvalidMessage)]⟩ :=
  ⟨rfl,
   (reject_missing_items "http://localhost:3000" (.obj []) .undefined
      (fun _ => .ok .null) (fun _ => .ok .null) rfl (Or.inl rfl)).2.1⟩

/-- C4 (counterexample): the body `{items: [null]}` is in the claim's
scope (the item's `title` is missing), yet the handler responds 500, not
400: reading `item.title` on `null` throws a `TypeError` that the catch
block converts into a 500 response. -/
theorem null_item_counterexample :
    createPreference "http://localhost:3000" (fun _ => .ok .null)
        (.obj [("items", .arr [JsValue.null])]) =
      ⟨500, .obj [("message",
        .str "Cannot read properties of null (reading \x27title\x27)"),
        ("details", .obj [])]⟩ ∧
    (500 : Nat) ≠ 400 :=
  ⟨rfl, by decide⟩

/-- C4 (amended): for every items array of the form
`good ++ bad :: rest` where every item of `good` passes the handler's
check, `bad` is invalid in the claim's sense (title missing/not a
string/blank, or quantity or unit price missing/not numeric/≤ 0), and
`bad` is not `null` or `undefined` (a `null` item instead throws and
yields a 500): the handler responds 400, the message ends with the JSON
serialization of `bad`, and the provider is never called (the response
does not depend on it). -/
theorem reject_invalid_item_amended (env : Option String)
    (good : List JsValue) (bad : JsValue) (rest : List JsValue)
    (p1 p2 : JsValue → Except JsValue JsValue)
    (hg : ∀ it ∈ good, itemInvalidCheck it = .ok false)
    (hb : specItemInvalid bad = true) (hnn : isNullOrUndefined bad = false) :
    phase1 (BASE_URL_index env) (.obj [("items", .arr (good ++ bad :: rest))]) =
      .early ⟨400, .obj [("message", .str (invalidItemMessage bad))]⟩ ∧
    (∃ s1, invalidItemMessage bad = s1 ++ jsonStringify bad) ∧
    createPreferenceIndex env p1 (.obj [("items", .arr (good ++ bad :: rest))]) =
      createPreferenceIndex env p2 (.obj [("items", .arr (good ++ bad :: rest))]) := by
  have h400 := phase1_early_of_invalid (BASE_URL_index env) good bad rest hg
    (specItemInvalid_imp bad hb hnn)
  have e1 := createPreference_early (BASE_URL_index env) p1 _ _ h400
  have e2 := createPreference_early (BASE_URL_index env) p2 _ _ h400
  exact ⟨h400, ⟨_, rfl⟩, by rw [createPreferenceIndex, createPreferenceIndex, e1, e2]⟩

/-- C4 (witness): the item of spec example 3 (`title` empty) is rejected
with 400 and its serialization in the message. -/
theorem reject_invalid_item_witness :
    specItemInvalid (mkItem "" (.val 1) (.val 5)) = true ∧
    phase1 (BASE_URL_index none)
        (.obj [("items", .arr ([] ++ mkItem "" (.val 1) (.val 5) :: []))]) =
      .early ⟨400, .obj [("message",
        .str (invalidItemMessage (mkItem "" (.val 1) (.val 5))))]⟩ :=
  ⟨by with_unfolding_all rfl,
   (reject_invalid_item_amended none [] (mkItem "" (.val 1) (.val 5)) []
      (fun _ => .ok .null) (fun _ => .ok .null)
      (fun it hit => absurd hit (List.not_mem_nil it))
      (by with_unfolding_all rfl) rfl).1⟩

/-- C5: when validation passes and the provider resolves with a response
object carrying `init_point`, the handler responds 200 with exactly
`{ init_point: <that value> }`; every other provider response field is
discarded. -/
theorem success_response (base : String)
    (provider : JsValue → Except JsValue JsValue) (body req : JsValue)
    (fs : List (String × JsValue)) (ip : JsValue)
    (h1 : phase1 base body = .call req)
    (h2 : provider req = .ok (.obj fs))
    (h3 : fs.lookup "init_point" = some ip) :
    createPreference base provider body = ⟨200, .obj [("init_point", ip)]⟩ := by
  rw [createPreference, h1]
  simp only [finish, h2, getField, h3]
  rfl

/-- C5 (witness): spec example 5 — the provider's extra `id` field is
discarded and only `init_point` is returned. -/
theorem success_response_witness :
    createPreference (BASE_URL_index none)
        (fun _ => .ok (.obj [("init_point", .str "https://pay.example/abc"),
          ("id", .num (.val 7))]))
        bookBody =
      ⟨200, .obj [("init_point", .str "https://pay.example/abc")]⟩ :=
  success_response (BASE_URL_index none)
    (fun _ => .ok (.obj [("init_point", .str "https://pay.example/abc"),
      ("id", .num (.val 7))]))
    bookBody (.obj [("body", preferenceData (BASE_URL_index none) [bookItem])])
    [("init_point", .str "https://pay.example/abc"), ("id", .num (.val 7))]
    (.str "https://pay.example/abc")
    (by with_unfolding_all rfl) rfl rfl

/-- C6 (counterexample): the claim fails as stated: when the provider
throws `{message: 42}`, the handler responds 500 with `message: 42`,
which is not a string — the truthy non-string `message` field is copied
verbatim. -/
theorem error_message_not_string_counterexample :
    createPreference "http://localhost:3000"
        (fun _ => .error (.obj [("message", .num (.val 42))])) bookBody =
      ⟨500, .obj [("message", .num (.val 42)), ("details", .obj [])]⟩ ∧
    isStringV (.num (.val 42)) = false :=
  ⟨by with_unfolding_all rfl, rfl⟩

/-- C6 (amended): for every error thrown by the provider call whose
`message` field and nested `response.data.message` field are strings
whenever truthy, the handler responds 500 with a non-empty `message`
string and a `details` object, falling back to the generic message when
the error carries no structured information; a truthy non-string message
field would instead be copied verbatim. -/
theorem error_contract_amended (base : String)
    (provider : JsValue → Except JsValue JsValue) (body req e : JsValue)
    (h1 : phase1 base body = .call req) (h2 : provider req = .error e)
    (h3 : messageFieldsStringly e = true) :
    (createPreference base provider body).status = 500 ∧
    ∃ s d, createPreference base provider body =
      ⟨500, .obj [("message", .str s), ("details", .obj d)]⟩ ∧ s ≠ "" := by
  have hce := createPreference_thrown base provider body req e h1 h2
  obtain ⟨s, d, hnd, hne⟩ := normalizeError_message_string e h3
  exact ⟨by rw [hce, hnd], s, d, by rw [hce, hnd], hne⟩

/-- C6 (witness): a thrown error with only a `status` field still yields
a 500 with the response contract satisfied. -/
theorem error_contract_witness :
    messageFieldsStringly (.obj [("status", .num (.val 503))]) = true ∧
    (createPreference (BASE_URL_index none)
        (fun _ => .error (.obj [("status", .num (.val 503))])) bookBody).status =
      500 :=
  ⟨rfl,
   (error_contract_amended (BASE_URL_index none)
      (fun _ => .error (.obj [("status", .num (.val 503))])) bookBody
      (.obj [("body", preferenceData (BASE_URL_index none) [bookItem])])
      (.obj [("status", .num (.val 503))])
      (by with_unfolding_all rfl) rfl rfl).1⟩

/-- C7: the provider throwing
`{status:400, response:{data:{message:"invalid token"}}}` yields a 500
with body `{message:"invalid token", details:{status:400,
apiResponse:{message:"invalid token"}}}`; and the nested
`response.data.message` overrides a top-level `message`. -/
theorem provider_error_detail :
    createPreferenceIndex none
        (fun _ => .error (.obj [("status", .num (.val 400)),
          ("response", .obj [("data", .obj [("message", .str "invalid token")])])]))
        bookBody =
      ⟨500, .obj [("message", .str "invalid token"),
        ("details", .obj [("status", .num (.val 400)),
          ("apiResponse", .obj [("message", .str "invalid token")])])]⟩ ∧
    normalizeError (.obj [("message", .str "outer"),
        ("response", .obj [("data", .obj [("message", .str "inner")])])]) =
      ⟨500, .obj [("message", .str "inner"),
        ("details", .obj [("apiResponse", .obj [("message", .str "inner")])])]⟩ :=
  ⟨by with_unfolding_all rfl, by with_unfolding_all rfl⟩

/-- C8: when the access token environment variable is absent (or empty,
both falsy), module evaluation exits the process with code 1 and never
reaches `app.listen`. -/
theorem startup_requires_token (tok : Option String)
    (h : envTruthy tok = false) :
    startup tok = .exited 1 ∧ ∀ p, startup tok ≠ .listening p := by
  have h1 : startup tok = .exited 1 := by
    rw [startup, h]
    rfl
  refine ⟨h1, fun p hc => ?_⟩
  rw [h1] at hc
  exact StartupResult.noConfusion hc

/-- C8 (witness): with the token unset the process exits with code 1. -/
theorem startup_requires_token_witness :
    envTruthy none = false ∧ startup none = .exited 1 :=
  ⟨rfl, (startup_requires_token none rfl).1⟩

/-- C9: items with `NaN` quantity or unit price, and items with zero
quantity or unit price, are all rejected with 400 by the falsiness check
— even though `NaN ≤ 0` is false and `NaN` is of number type. -/
theorem nan_and_zero_rejected :
    createPreference "http://localhost:3000" (fun _ => .ok .null)
        (.obj [("items", .arr [mkItem "x" .nan (.val 1)])]) =
      ⟨400, .obj [("message", .str (invalidItemMessage (mkItem "x" .nan (.val 1))))]⟩ ∧
    createPreference "http://localhost:3000" (fun _ => .ok .null)
        (.obj [("items", .arr [mkItem "x" (.val 1) .nan])]) =
      ⟨400, .obj [("message", .str (invalidItemMessage (mkItem "x" (.val 1) .nan)))]⟩ ∧
    createPreference "http://localhost:3000" (fun _ => .ok .null)
        (.obj [("items", .arr [mkItem "x" (.val 0) (.val 1)])]) =
      ⟨400, .obj [("message", .str (invalidItemMessage (mkItem "x" (.val 0) (.val 1))))]⟩ ∧
    createPreference "http://localhost:3000" (fun _ => .ok .null)
        (.obj [("items", .arr [mkItem "x" (.val 1) (.val 0)])]) =
      ⟨400, .obj [("message", .str (invalidItemMessage (mkItem "x" (.val 1) (.val 0))))]⟩ ∧
    jsLeZero .nan = false ∧
    jsTruthy (.num .nan) = false ∧
    jsTruthy (.num (.val 0)) = false := by
  refine ⟨?_, ?_, ?_, ?_, rfl, rfl, ?_⟩ <;> with_unfolding_all rfl

/-- C10: a thrown non-object (or falsy) value, and a thrown object whose
`message`, `status`, `cause` and `response.data` fields are all absent
or falsy, both produce the 500 response with the generic message and an
empty `details` object; and for every thrown value whatsoever the
response body has exactly the shape `{message, details}` with `details`
an object. -/
theorem error_fallback_shape :
    (∀ e : JsValue, jsTruthy e = false ∨ typeofIsObject e = false →
      normalizeError e =
        ⟨500, .obj [("message", .str genericErrorMessage), ("details", .obj [])]⟩) ∧
    (∀ e : JsValue, jsTruthy (fieldD e "message") = false →
      jsTruthy (fieldD e "status") = false →
      jsTruthy (fieldD e "cause") = false →
      jsTruthy (fieldD (fieldD e "response") "data") = false →
      normalizeError e =
        ⟨500, .obj [("message", .str genericErrorMessage), ("details", .obj [])]⟩) ∧
    (∀ e : JsValue, ∃ m d,
      normalizeError e = ⟨500, .obj [("message", m), ("details", .obj d)]⟩) :=
  ⟨normalizeError_not_object, normalizeError_no_fields, normalizeError_shape⟩

/-- C10 (witness): a thrown string and a thrown object with none of the
probed fields both yield the generic 500. -/
theorem error_fallback_shape_witness :
    normalizeError (.str "boom") =
      ⟨500, .obj [("message", .str genericErrorMessage), ("details", .obj [])]⟩ ∧
    normalizeError (.obj [("foo", .bool true)]) =
      ⟨500, .obj [("message", .str genericErrorMessage), ("details", .obj [])]⟩ :=
  ⟨error_fallback_shape.1 (.str "boom") (Or.inr rfl),
   error_fallback_shape.2.1 (.obj [("foo", .bool true)]) rfl rfl rfl rfl⟩

end PagosML
